import Mathlib

/-!
Verification of the hotel query engine in `agent.py` (`query_hotels`).

The engine filters a tabular hotel dataset by optional city/country
(case-insensitive equality) and optional numeric lower bounds, optionally
sorts descending by a resolved column, and truncates to a clamped limit.
Optionality follows Python truthiness: `None`, the empty string, and the
integer `0` all disable a filter.  `num_results` defaults to `10`; passing
`None` explicitly makes `min(max(None, 1), 10)` raise a `TypeError`, which
the embedding models as the `none` result.
-/

namespace HotelQA

/-- One row of the hotel dataset.  The retained columns after `load_csv`
drops `location_base`, `staff_base` and `value_for_money_base` are the
hotel name, city, country, star rating and the three base quality scores.
The backing `hotels.csv` is not part of the repository; the column set is
taken from the specification of the backing file. -/
structure HotelRecord where
  name : String
  city : String
  country : String
  star_rating : Int
  cleanliness_base : Int
  comfort_base : Int
  facilities_base : Int
deriving DecidableEq, Repr

/-- Model of Python's `str.lower()`: lower-case every character. -/
def strLower (s : String) : String :=
  String.mk (s.data.map Char.toLower)

/-- Columns of the loaded dataframe (after the drop in `load_csv`).
Modelled from the spec: `hotels.csv` itself is not in the repository; the
spec lists the retained columns of the backing file, plus the hotel name. -/
def csvColumns : List String :=
  ["name", "city", "country", "star_rating", "cleanliness_base",
   "comfort_base", "facilities_base"]

/-- The `COLUMN_MAP` dictionary of `query_hotels`, with `dict.get`'s
fallback to the key itself. -/
def COLUMN_MAP : String → String
  | "comfort" => "comfort_base"
  | "cleanliness" => "cleanliness_base"
  | "facilities" => "facilities_base"
  | "star_rating" => "star_rating"
  | s => s

/-- Descending comparison used by the model of
`sort_values(by=col, ascending=False)`: `colGt col a b` holds when row `a`
has a strictly greater value than row `b` in column `col`. -/
def colGt (col : String) (a b : HotelRecord) : Bool :=
  if col = "star_rating" then decide (b.star_rating < a.star_rating)
  else if col = "cleanliness_base" then decide (b.cleanliness_base < a.cleanliness_base)
  else if col = "comfort_base" then decide (b.comfort_base < a.comfort_base)
  else if col = "facilities_base" then decide (b.facilities_base < a.facilities_base)
  else if col = "city" then decide (b.city < a.city)
  else if col = "country" then decide (b.country < a.country)
  else if col = "name" then decide (b.name < a.name)
  else false

/-- Insert a row into a descending-ordered list, keeping earlier rows
first among equal keys. -/
def insertDescBy (gt : HotelRecord → HotelRecord → Bool) (x : HotelRecord) :
    List HotelRecord → List HotelRecord
  | [] => [x]
  | y :: ys => if gt y x then y :: insertDescBy gt x ys else x :: y :: ys

/-- Stable descending insertion sort, the embedding of
`DataFrame.sort_values(by=col, ascending=False)`.  Pandas' default sort
kind does not promise a tie order; the theorems below use only that the
output is a permutation of the input. -/
def sortDescBy (col : String) (l : List HotelRecord) : List HotelRecord :=
  l.foldr (insertDescBy (colGt col)) []

/-- One string filter step of `query_hotels`: `if city: csv = csv[...]`.
`none` and the empty string are falsy, so they leave the frame unchanged;
otherwise rows are kept when the lower-cased column equals the lower-cased
argument. -/
def applyStrFilter (get : HotelRecord → String) (v : Option String)
    (l : List HotelRecord) : List HotelRecord :=
  match v with
  | none => l
  | some s =>
    if s = "" then l
    else l.filter (fun r => strLower (get r) == strLower s)

/-- One numeric filter step of `query_hotels`: `if star_rating: ...`.
`none` and `0` are falsy; otherwise rows are kept when the column value is
at least the threshold. -/
def applyIntFilter (get : HotelRecord → Int) (v : Option Int)
    (l : List HotelRecord) : List HotelRecord :=
  match v with
  | none => l
  | some t =>
    if t = 0 then l
    else l.filter (fun r => decide (t ≤ get r))

/-- The six filter steps of `query_hotels`, in source order. -/
def applyFilters (df : List HotelRecord) (city country : Option String)
    (star_rating cleanliness comfort facilities : Option Int) :
    List HotelRecord :=
  applyIntFilter (fun r => r.facilities_base) facilities
    (applyIntFilter (fun r => r.comfort_base) comfort
      (applyIntFilter (fun r => r.cleanliness_base) cleanliness
        (applyIntFilter (fun r => r.star_rating) star_rating
          (applyStrFilter (fun r => r.country) country
            (applyStrFilter (fun r => r.city) city df)))))

/-- The sorting step of `query_hotels`: `if sort_by:` (falsy skips), map
the logical name through `COLUMN_MAP`, and sort only when the resolved
column exists in the frame. -/
def applySort (sort_by : Option String) (l : List HotelRecord) :
    List HotelRecord :=
  match sort_by with
  | none => l
  | some sb =>
    if sb = "" then l
    else
      let sort_col := COLUMN_MAP sb
      if sort_col ∈ csvColumns then sortDescBy sort_col l else l

/-- The limit clamp `num_results = min(max(num_results, 1), 10)`. -/
def clampLimit (n : Int) : Int :=
  min (max n 1) 10

/-- The `query_hotels` tool over an explicit dataset.  A `none`
`num_results` makes Python's `min(max(None, 1), 10)` raise a `TypeError`,
modelled by the `none` result; otherwise the clamped head of the sorted,
filtered frame is returned. -/
def query_hotels (df : List HotelRecord) (city country : Option String)
    (star_rating cleanliness comfort facilities : Option Int)
    (sort_by : Option String) (num_results : Option Int) :
    Option (List HotelRecord) :=
  match num_results with
  | none => none
  | some n =>
    some (((applySort sort_by
      (applyFilters df city country star_rating cleanliness comfort
        facilities)).take (clampLimit n).toNat))

/-- Calling `query_hotels` without the `num_results` argument: the Python
default value is the integer `10`, not `None`. -/
def query_hotels_noNum (df : List HotelRecord) (city country : Option String)
    (star_rating cleanliness comfort facilities : Option Int)
    (sort_by : Option String) : Option (List HotelRecord) :=
  query_hotels df city country star_rating cleanliness comfort facilities
    sort_by (some 10)

/-- A record passes the active part of a string filter argument. -/
def strFilterOk (get : HotelRecord → String) (v : Option String)
    (r : HotelRecord) : Bool :=
  match v with
  | none => true
  | some s => if s = "" then true else strLower (get r) == strLower s

/-- A record passes the active part of a numeric threshold argument. -/
def intFilterOk (get : HotelRecord → Int) (v : Option Int)
    (r : HotelRecord) : Bool :=
  match v with
  | none => true
  | some t => if t = 0 then true else decide (t ≤ get r)

/-- A record satisfies every active filter of a request. -/
def matchesActive (city country : Option String)
    (star_rating cleanliness comfort facilities : Option Int)
    (r : HotelRecord) : Bool :=
  strFilterOk (fun x => x.city) city r &&
  strFilterOk (fun x => x.country) country r &&
  intFilterOk (fun x => x.star_rating) star_rating r &&
  intFilterOk (fun x => x.cleanliness_base) cleanliness r &&
  intFilterOk (fun x => x.comfort_base) comfort r &&
  intFilterOk (fun x => x.facilities_base) facilities r

theorem strLower_eq_empty_iff (s : String) : strLower s = "" ↔ s = "" := by
  constructor
  · intro h
    have hd : s.data.map Char.toLower = [] := congrArg String.data h
    have : s.data = [] := List.map_eq_nil.mp hd
    cases s
    simp_all
  · intro h
    subst h
    rfl

theorem mem_applyStrFilter (get : HotelRecord → String) (v : Option String)
    (l : List HotelRecord) (r : HotelRecord) :
    r ∈ applyStrFilter get v l ↔ r ∈ l ∧ strFilterOk get v r = true := by
  cases v with
  | none => simp [applyStrFilter, strFilterOk]
  | some s =>
    by_cases hs : s = "" <;>
      simp [applyStrFilter, strFilterOk, hs, List.mem_filter]

theorem mem_applyIntFilter (get : HotelRecord → Int) (v : Option Int)
    (l : List HotelRecord) (r : HotelRecord) :
    r ∈ applyIntFilter get v l ↔ r ∈ l ∧ intFilterOk get v r = true := by
  cases v with
  | none => simp [applyIntFilter, intFilterOk]
  | some t =>
    by_cases ht : t = 0 <;>
      simp [applyIntFilter, intFilterOk, ht, List.mem_filter]

theorem mem_applyFilters (df : List HotelRecord) (city country : Option String)
    (sr cl co fa : Option Int) (r : HotelRecord) :
    r ∈ applyFilters df city country sr cl co fa ↔
      r ∈ df ∧ matchesActive city country sr cl co fa r = true := by
  simp only [applyFilters, mem_applyStrFilter, mem_applyIntFilter,
    matchesActive, Bool.and_eq_true]
  tauto

theorem mem_insertDescBy (gt : HotelRecord → HotelRecord → Bool)
    (x r : HotelRecord) (l : List HotelRecord) :
    r ∈ insertDescBy gt x l ↔ r = x ∨ r ∈ l := by
  induction l with
  | nil => simp [insertDescBy]
  | cons y ys ih =>
    by_cases h : gt y x = true <;> simp [insertDescBy, h, ih] <;> tauto

theorem length_insertDescBy (gt : HotelRecord → HotelRecord → Bool)
    (x : HotelRecord) (l : List HotelRecord) :
    (insertDescBy gt x l).length = l.length + 1 := by
  induction l with
  | nil => rfl
  | cons y ys ih =>
    by_cases h : gt y x = true <;> simp [insertDescBy, h, ih]

theorem mem_sortDescBy (col : String) (l : List HotelRecord)
    (r : HotelRecord) : r ∈ sortDescBy col l ↔ r ∈ l := by
  induction l with
  | nil => simp [sortDescBy]
  | cons y ys ih =>
    simp only [sortDescBy, List.foldr_cons] at *
    rw [mem_insertDescBy, ih]
    simp

theorem length_sortDescBy (col : String) (l : List HotelRecord) :
    (sortDescBy col l).length = l.length := by
  induction l with
  | nil => rfl
  | cons y ys ih =>
    simp only [sortDescBy, List.foldr_cons] at *
    rw [length_insertDescBy, ih]
    rfl

theorem mem_applySort (sort_by : Option String) (l : List HotelRecord)
    (r : HotelRecord) : r ∈ applySort sort_by l ↔ r ∈ l := by
  cases sort_by with
  | none => simp [applySort]
  | some sb =>
    by_cases hs : sb = ""
    · simp [applySort, hs]
    · by_cases hc : COLUMN_MAP sb ∈ csvColumns <;>
        simp [applySort, hs, hc, mem_sortDescBy]

theorem length_applySort (sort_by : Option String) (l : List HotelRecord) :
    (applySort sort_by l).length = l.length := by
  cases sort_by with
  | none => rfl
  | some sb =>
    by_cases hs : sb = ""
    · simp [applySort, hs]
    · by_cases hc : COLUMN_MAP sb ∈ csvColumns <;>
        simp [applySort, hs, hc, length_sortDescBy]

/-- A sample record: the first hotel of the spec's example scenario. -/
def hotelA : HotelRecord :=
  { name := "A", city := "Paris", country := "France", star_rating := 5,
    cleanliness_base := 9, comfort_base := 8, facilities_base := 7 }

/-- A sample record: the second hotel of the spec's example scenario. -/
def hotelB : HotelRecord :=
  { name := "B", city := "Paris", country := "France", star_rating := 3,
    cleanliness_base := 7, comfort_base := 6, facilities_base := 5 }

/-- A two-row sample dataset. -/
def sampleDF : List HotelRecord := [hotelA, hotelB]

example :
    query_hotels sampleDF (some "paris") none (some 4) none none none none
      (some 10) = some [hotelA] := by decide

/-- C1: every record returned by `query_hotels` satisfies every active
filter of the request (case-insensitive equality for a truthy city or
country, inclusive lower bound for each truthy numeric threshold). -/
theorem c1_filter_soundness (df : List HotelRecord)
    (city country : Option String) (sr cl co fa : Option Int)
    (sb : Option String) (n : Int) (res : List HotelRecord)
    (r : HotelRecord)
    (hq : query_hotels df city country sr cl co fa sb (some n) = some res)
    (hr : r ∈ res) : matchesActive city country sr cl co fa r = true := by
  simp only [query_hotels, Option.some.injEq] at hq
  subst hq
  have h1 : r ∈ applySort sb (applyFilters df city country sr cl co fa) :=
    List.mem_of_mem_take hr
  have h2 : r ∈ applyFilters df city country sr cl co fa :=
    (mem_applySort sb _ r).mp h1
  exact ((mem_applyFilters df city country sr cl co fa r).mp h2).2

/-- Witness for C1 at the spec's example scenario. -/
theorem c1_filter_soundness_witness :
    matchesActive (some "paris") none (some 4) none none none hotelA = true :=
  c1_filter_soundness sampleDF (some "paris") none (some 4) none none none
    none 10 [hotelA] hotelA (by decide) (by decide)

/-- C2: a dataset record satisfying all active filters appears in the
result unless the filtered frame is longer than the clamped limit, i.e.
unless it could only have been dropped by the `head` truncation. -/
theorem c2_completeness_up_to_limit (df : List HotelRecord)
    (city country : Option String) (sr cl co fa : Option Int)
    (sb : Option String) (n : Int) (res : List HotelRecord)
    (r : HotelRecord)
    (hq : query_hotels df city country sr cl co fa sb (some n) = some res)
    (hmem : r ∈ df)
    (hmatch : matchesActive city country sr cl co fa r = true) :
    r ∈ res ∨
      (clampLimit n).toNat <
        (applyFilters df city country sr cl co fa).length := by
  simp only [query_hotels, Option.some.injEq] at hq
  subst hq
  have hrf : r ∈ applyFilters df city country sr cl co fa :=
    (mem_applyFilters df city country sr cl co fa r).mpr ⟨hmem, hmatch⟩
  by_cases hlen :
      (applyFilters df city country sr cl co fa).length ≤
        (clampLimit n).toNat
  · left
    have hslen :
        (applySort sb (applyFilters df city country sr cl co fa)).length ≤
          (clampLimit n).toNat := by
      rw [length_applySort]; exact hlen
    rw [List.take_of_length_le hslen]
    exact (mem_applySort sb _ r).mpr hrf
  · right
    omega

/-- Witness for C2: with limit 1 the matching record B is pushed out only
because the filtered frame has 2 rows, more than the clamped limit. -/
theorem c2_completeness_up_to_limit_witness :
    hotelB ∈ [hotelA] ∨
      (clampLimit 1).toNat <
        (applyFilters sampleDF (some "paris") none none none none
          none).length :=
  c2_completeness_up_to_limit sampleDF (some "paris") none none none none
    none none 1 [hotelA] hotelB (by decide) (by decide) (by decide)

/-- C3: the effective limit is `min(max(n, 1), 10)`, always in `[1, 10]`;
limits 0 and -5 behave like 1, limit 500 behaves like 10, and omitting
`num_results` uses the default 10. -/
theorem c3_limit_clamp (df : List HotelRecord)
    (city country : Option String) (sr cl co fa : Option Int)
    (sb : Option String) (n : Int) :
    query_hotels df city country sr cl co fa sb (some n) =
      query_hotels df city country sr cl co fa sb (some (clampLimit n)) ∧
    1 ≤ clampLimit n ∧ clampLimit n ≤ 10 ∧
    query_hotels df city country sr cl co fa sb (some 0) =
      query_hotels df city country sr cl co fa sb (some 1) ∧
    query_hotels df city country sr cl co fa sb (some (-5)) =
      query_hotels df city country sr cl co fa sb (some 1) ∧
    query_hotels df city country sr cl co fa sb (some 500) =
      query_hotels df city country sr cl co fa sb (some 10) ∧
    query_hotels_noNum df city country sr cl co fa sb =
      query_hotels df city country sr cl co fa sb (some 10) := by
  refine ⟨?_, ?_, ?_, ?_, ?_, ?_, rfl⟩
  · have h : clampLimit (clampLimit n) = clampLimit n := by
      unfold clampLimit; omega
    simp only [query_hotels, h]
  · unfold clampLimit; omega
  · unfold clampLimit; omega
  · have h : clampLimit 0 = clampLimit 1 := by decide
    simp only [query_hotels, h]
  · have h : clampLimit (-5) = clampLimit 1 := by decide
    simp only [query_hotels, h]
  · have h : clampLimit 500 = clampLimit 10 := by decide
    simp only [query_hotels, h]

theorem applySort_nil (sort_by : Option String) : applySort sort_by [] = [] := by
  cases sort_by with
  | none => rfl
  | some sb =>
    by_cases hs : sb = ""
    · simp [applySort, hs]
    · by_cases hc : COLUMN_MAP sb ∈ csvColumns <;>
        simp [applySort, hs, hc, sortDescBy]

theorem applyStrFilter_congr (get : HotelRecord → String) (s1 s2 : String)
    (l : List HotelRecord) (h : strLower s1 = strLower s2) :
    applyStrFilter get (some s1) l = applyStrFilter get (some s2) l := by
  by_cases h1 : s1 = ""
  · have h2 : s2 = "" := by
      subst h1
      exact (strLower_eq_empty_iff s2).mp h.symm
    simp [applyStrFilter, h1, h2]
  · have h2 : s2 ≠ "" := by
      intro hc
      subst hc
      exact h1 ((strLower_eq_empty_iff s1).mp h)
    simp only [applyStrFilter, if_neg h1, if_neg h2, h]

/-- C5: a request with no fields set returns the first 10 dataset records
in original order, and the whole dataset when it has at most 10 rows. -/
theorem c5_noop_request (df : List HotelRecord) :
    query_hotels_noNum df none none none none none none none =
      some (df.take 10) ∧
    (df.length ≤ 10 →
      query_hotels_noNum df none none none none none none none = some df) := by
  have hq : query_hotels_noNum df none none none none none none none =
      some (df.take 10) := by
    have h10 : (clampLimit 10).toNat = 10 := by decide
    simp only [query_hotels_noNum, query_hotels, applyFilters,
      applyStrFilter, applyIntFilter, applySort, h10]
  refine ⟨hq, fun h => ?_⟩
  rw [hq, List.take_of_length_le h]

/-- Witness for C5 on the two-row sample dataset. -/
theorem c5_noop_request_witness :
    query_hotels_noNum sampleDF none none none none none none none =
      some sampleDF :=
  (c5_noop_request sampleDF).2 (by decide)

/-- C6: two casings of the same city string (or of the same country
string) yield identical query results, everything else held equal. -/
theorem c6_case_insensitive (df : List HotelRecord)
    (city country : Option String) (sr cl co fa : Option Int)
    (sb : Option String) (n : Int) (c1 c2 k1 k2 : String) :
    (strLower c1 = strLower c2 →
      query_hotels df (some c1) country sr cl co fa sb (some n) =
        query_hotels df (some c2) country sr cl co fa sb (some n)) ∧
    (strLower k1 = strLower k2 →
      query_hotels df city (some k1) sr cl co fa sb (some n) =
        query_hotels df city (some k2) sr cl co fa sb (some n)) := by
  constructor
  · intro h
    have hc := applyStrFilter_congr (fun r => r.city) c1 c2 df h
    simp only [query_hotels, applyFilters, hc]
  · intro h
    have hk :
        applyStrFilter (fun r => r.country) (some k1)
            (applyStrFilter (fun r => r.city) city df) =
          applyStrFilter (fun r => r.country) (some k2)
            (applyStrFilter (fun r => r.city) city df) :=
      applyStrFilter_congr (fun r => r.country) k1 k2 _ h
    simp only [query_hotels, applyFilters, hk]

/-- Witness for C6: `city="paris"` and `city="PARIS"` agree on the sample
dataset. -/
theorem c6_case_insensitive_witness :
    query_hotels sampleDF (some "paris") none none none none none none
        (some 10) =
      query_hotels sampleDF (some "PARIS") none none none none none none
        (some 10) :=
  (c6_case_insensitive sampleDF none none none none none none none 10
    "paris" "PARIS" "x" "x").1 (by decide)

/-- C7: a zero value for any numeric threshold is falsy in Python, so the
filter is skipped exactly as if the argument were omitted. -/
theorem c7_zero_threshold (df : List HotelRecord)
    (city country : Option String) (sr cl co fa : Option Int)
    (sb : Option String) (n : Int) :
    query_hotels df city country (some 0) cl co fa sb (some n) =
      query_hotels df city country none cl co fa sb (some n) ∧
    query_hotels df city country sr (some 0) co fa sb (some n) =
      query_hotels df city country sr none co fa sb (some n) ∧
    query_hotels df city country sr cl (some 0) fa sb (some n) =
      query_hotels df city country sr cl none fa sb (some n) ∧
    query_hotels df city country sr cl co (some 0) sb (some n) =
      query_hotels df city country sr cl co none sb (some n) := by
  refine ⟨?_, ?_, ?_, ?_⟩ <;> simp [query_hotels, applyFilters, applyIntFilter]

/-- C8: when the resolved sort column is not a dataframe column, sorting
is skipped silently and the result equals the unsorted request's. -/
theorem c8_unknown_sort_skipped (df : List HotelRecord)
    (city country : Option String) (sr cl co fa : Option Int) (sb : String)
    (n : Int) (h : COLUMN_MAP sb ∉ csvColumns) :
    query_hotels df city country sr cl co fa (some sb) (some n) =
      query_hotels df city country sr cl co fa none (some n) := by
  by_cases hs : sb = ""
  · simp [query_hotels, applySort, hs]
  · simp [query_hotels, applySort, hs, h]

/-- Witness for C8 with the unknown sort field "price". -/
theorem c8_unknown_sort_skipped_witness :
    query_hotels sampleDF none none none none none none (some "price")
        (some 10) =
      query_hotels sampleDF none none none none none none none (some 10) :=
  c8_unknown_sort_skipped sampleDF none none none none none none "price" 10
    (by decide)

/-- C9: with an integer `num_results` the query always terminates with a
result, and when no record matches the active filters the result is the
empty list, not an error. -/
theorem c9_no_error_empty_ok (df : List HotelRecord)
    (city country : Option String) (sr cl co fa : Option Int)
    (sb : Option String) (n : Int) :
    (∃ res, query_hotels df city country sr cl co fa sb (some n) =
      some res) ∧
    ((∀ r ∈ df, matchesActive city country sr cl co fa r = false) →
      query_hotels df city country sr cl co fa sb (some n) = some []) := by
  refine ⟨⟨_, rfl⟩, fun h => ?_⟩
  have hf : applyFilters df city country sr cl co fa = [] := by
    rw [List.eq_nil_iff_forall_not_mem]
    intro r hr
    have ⟨hmem, hmatch⟩ := (mem_applyFilters df city country sr cl co fa r).mp hr
    rw [h r hmem] at hmatch
    exact Bool.false_ne_true hmatch
  simp [query_hotels, hf, applySort_nil]

/-- Witness for C9: a city filter matching nothing yields the empty
result. -/
theorem c9_no_error_empty_ok_witness :
    query_hotels sampleDF (some "london") none none none none none none
      (some 10) = some [] :=
  (c9_no_error_empty_ok sampleDF (some "london") none none none none none
    none 10).2 (by decide)

/-- C10: passing `num_results=None` explicitly hits the `TypeError` in
`min(max(None, 1), 10)` (modelled as `none`), while omitting the argument
uses the Python default value 10. -/
theorem c10_none_limit_fails (df : List HotelRecord)
    (city country : Option String) (sr cl co fa : Option Int)
    (sb : Option String) :
    query_hotels df city country sr cl co fa sb none = none ∧
    query_hotels_noNum df city country sr cl co fa sb =
      query_hotels df city country sr cl co fa sb (some 10) :=
  ⟨rfl, rfl⟩

end HotelQA
